import Mathlib

/-!
Shallow embedding of `src/decky_plugin_installer.py` (AeroCore-IO/decky-installer).

The Python module implements a minimal WebSocket client for a plugin-management
service: a frame codec (`DeckyClient.send` / `DeckyClient.recv`), a per-connection
message-id counter, and three workflows (`run_installer`, `configure_store_url`,
`get_store_url`).  Bytes are modelled as `Nat` values, the incoming socket stream
as a `List Nat`, and `StreamReader.readexactly` as a reader that fails (returns
`none`) when fewer bytes remain than requested, exactly like the
`IncompleteReadError` path of the source.  `os.urandom` mask bytes become an
explicit parameter.  JSON parsing (`json.loads`) is kept as an abstract parameter
`parse` of the receive path: the workflows only depend on whether it succeeds.
-/

namespace DeckyInstaller

/-- Decky Loader message type code `CALL = 0` from the source. -/
def CALL : Int := 0

/-- Decky Loader message type code `REPLY = 1` from the source. -/
def REPLY : Int := 1

/-- Decky Loader message type code `ERROR = -1` from the source. -/
def ERROR : Int := -1

/-- Decky Loader message type code `EVENT = 3` from the source. -/
def EVENT : Int := 3

/-- Default store URL constant from the source. -/
def DEFAULT_STORE_URL : String := "https://plugins.deckbrew.xyz/plugins"

/-- Big-endian encoding of `n` into `k` bytes, as `struct.pack("!H")` (k = 2)
and `struct.pack("!Q")` (k = 8) produce. -/
def packBE : Nat → Nat → List Nat
  | 0, _ => []
  | k + 1, n => packBE k (n / 256) ++ [n % 256]

/-- Big-endian unsigned decoding of a byte list, as `struct.unpack("!H")` and
`struct.unpack("!Q")` produce (both formats are unsigned). -/
def unpackBE (bs : List Nat) : Nat :=
  bs.foldl (fun acc b => acc * 256 + b) 0

/-- XOR each byte with the 4-byte mask cycling every 4 positions, starting at
position `i`: `bytes(b ^ mask[i % 4] for i, b in enumerate(payload))`. -/
def xorMask (mask : List Nat) : List Nat → Nat → List Nat
  | [], _ => []
  | b :: bs, i => (b ^^^ mask.getD (i % 4) 0) :: xorMask mask bs (i + 1)

/-- Frame construction of `DeckyClient.send`: first byte `0x81` (FIN ∣ Text),
second byte mask bit `0x80` ∣ length class, optional big-endian extended
length, then the 4 mask bytes and the masked payload.  The random mask is an
explicit parameter. -/
def sendFrame (payload : List Nat) (mask : List Nat) : List Nat :=
  let length := payload.length
  let header : List Nat :=
    if length < 126 then [0x81, length ||| 0x80]
    else if length < 65536 then [0x81, 126 ||| 0x80] ++ packBE 2 length
    else [0x81, 127 ||| 0x80] ++ packBE 8 length
  header ++ (mask ++ xorMask mask payload 0)

/-- `StreamReader.readexactly(n)`: the first `n` bytes of the stream plus the
remaining stream, or `none` (the `IncompleteReadError` path) when the stream
ends first. -/
def readExactly (n : Nat) (s : List Nat) : Option (List Nat × List Nat) :=
  if n ≤ s.length then some (s.take n, s.drop n) else none

/-- Frame reading of `DeckyClient.recv`: two header bytes, then by length code
an optional 2- or 8-byte big-endian extended length, then 4 mask bytes when the
mask bit is set, then exactly `length` payload bytes, unmasked when the mask
bit is set.  Returns the payload and the remaining stream; `none` models the
caught `IncompleteReadError`/`ConnectionError` (stream closed mid-read).  The
opcode in the first header byte is read but never inspected, as in the source
(the line computing it is commented out). -/
def recvFrame (s : List Nat) : Option (List Nat × List Nat) :=
  (readExactly 2 s).bind fun hs =>
    let b1 := hs.1.getD 1 0
    let hasMask : Bool := (b1 &&& 0x80) != 0
    let lenCode := b1 &&& 0x7F
    (if lenCode = 126 then
        (readExactly 2 hs.2).map fun es => (unpackBE es.1, es.2)
      else if lenCode = 127 then
        (readExactly 8 hs.2).map fun es => (unpackBE es.1, es.2)
      else some (lenCode, hs.2)).bind fun ls =>
      (if hasMask then readExactly 4 ls.2 else some ([], ls.2)).bind fun ms =>
        (readExactly ls.1 ms.2).map fun ps =>
          (if hasMask then xorMask ms.1 ps.1 0 else ps.1, ps.2)

/-- Error raised by `DeckyClient.recv` when a fully read frame has a payload
that `json.loads` rejects: the `json` exception is not caught by the
`except (IncompleteReadError, ConnectionError)` clause and propagates. -/
inductive RecvError where
  | protocolViolation
deriving DecidableEq

/-- `DeckyClient.recv`: read one frame and parse its payload.  A truncated
stream yields `Except.ok none` (the source returns `None`); a fully read frame
whose payload the parser rejects yields a `protocolViolation` error.  The JSON
parser is an abstract parameter. -/
def recvMsg {M : Type} (parse : List Nat → Option M) (s : List Nat) :
    Except RecvError (Option (M × List Nat)) :=
  match recvFrame s with
  | none => .ok none
  | some pr =>
    match parse pr.1 with
    | none => .error .protocolViolation
    | some m => .ok (some (m, pr.2))

/- Basic codec lemmas. -/

theorem xorMask_length (mask : List Nat) :
    ∀ (p : List Nat) (i : Nat), (xorMask mask p i).length = p.length := by
  intro p
  induction p with
  | nil => intro i; rfl
  | cons b bs ih => intro i; simp [xorMask, ih]

theorem xorMask_xorMask (mask : List Nat) :
    ∀ (p : List Nat) (i : Nat), xorMask mask (xorMask mask p i) i = p := by
  intro p
  induction p with
  | nil => intro i; rfl
  | cons b bs ih =>
    intro i
    simp only [xorMask, ih]
    rw [Nat.xor_assoc, Nat.xor_self, Nat.xor_zero]

theorem packBE_length : ∀ (k n : Nat), (packBE k n).length = k := by
  intro k
  induction k with
  | zero => intro n; rfl
  | succ k ih => intro n; simp [packBE, ih]

theorem unpackBE_packBE : ∀ (k n : Nat), unpackBE (packBE k n) = n % 256 ^ k := by
  intro k
  induction k with
  | zero => intro n; simp [packBE, unpackBE, Nat.mod_one]
  | succ k ih =>
    intro n
    have h1 : unpackBE (packBE k (n / 256) ++ [n % 256]) =
        unpackBE (packBE k (n / 256)) * 256 + n % 256 := by
      simp [unpackBE, List.foldl_concat]
    have h2 : (256 : Nat) ^ (k + 1) = 256 * 256 ^ k := by
      rw [pow_succ, Nat.mul_comm]
    have h3 : n % (256 * 256 ^ k) = n % 256 + 256 * (n / 256 % 256 ^ k) :=
      Nat.mod_mul
    simp only [packBE, h1, ih, h2, h3]
    omega

theorem readExactly_exact {n : Nat} (l s : List Nat) (h : l.length = n) :
    readExactly n (l ++ s) = some (l, s) := by
  subst h
  simp [readExactly, List.take_left, List.drop_left]

theorem readExactly_eq_none {n : Nat} (s : List Nat) (h : s.length < n) :
    readExactly n s = none := by
  simp [readExactly]
  omega

theorem or80_and7f {L : Nat} (h : L < 128) : (L ||| 128) &&& 127 = L := by
  apply Nat.eq_of_testBit_eq
  intro i
  have h127 : (127 : Nat) = 2 ^ 7 - 1 := by norm_num
  have h128 : (128 : Nat) = 2 ^ 7 := by norm_num
  rw [h127, h128, Nat.testBit_and, Nat.testBit_or, Nat.testBit_two_pow,
    Nat.testBit_two_pow_sub_one]
  by_cases hi : i < 7
  · have h7 : ¬(7 = i) := by omega
    simp [hi, h7]
  · have hle : 2 ^ 7 ≤ 2 ^ i := Nat.pow_le_pow_right (by norm_num) (by omega)
    have hL : L.testBit i = false := Nat.testBit_lt_two_pow (by omega)
    simp [hi, hL]

theorem or80_and80_ne (L : Nat) : (L ||| 128) &&& 128 ≠ 0 := by
  intro h0
  have h128 : (128 : Nat) = 2 ^ 7 := by norm_num
  have ht : ((L ||| 128) &&& 128).testBit 7 = true := by
    rw [h128, Nat.testBit_and, Nat.testBit_or, Nat.testBit_two_pow_self]
    simp
  rw [h0] at ht
  simp at ht

/-- Unfolding equation for `recvFrame` once the two header bytes are present. -/
theorem recvFrame_cons (b0 b1 : Nat) (t : List Nat) :
    recvFrame (b0 :: b1 :: t) =
      (if b1 &&& 0x7F = 126 then
          (readExactly 2 t).map fun es => (unpackBE es.1, es.2)
        else if b1 &&& 0x7F = 127 then
          (readExactly 8 t).map fun es => (unpackBE es.1, es.2)
        else some (b1 &&& 0x7F, t)).bind fun ls =>
        (if (b1 &&& 0x80) != 0 then readExactly 4 ls.2 else some ([], ls.2)).bind fun ms =>
          (readExactly ls.1 ms.2).map fun ps =>
            (if (b1 &&& 0x80) != 0 then xorMask ms.1 ps.1 0 else ps.1, ps.2) := by
  have h2 : readExactly 2 (b0 :: b1 :: t) = some ([b0, b1], t) :=
    readExactly_exact [b0, b1] t rfl
  simp [recvFrame, h2]

/-- C1: for every text payload, decoding the frame produced by encoding it as a
masked text frame yields the payload back (and consumes exactly the frame);
encoding picks the inline 7-bit length for lengths < 126, a 2-byte big-endian
extended length for lengths < 65536, and an 8-byte big-endian extended length
otherwise, reflected in the total frame length `headerWidth + 4 + payloadLen`.
XOR masking is applied on encode and undone on decode. -/
theorem claim_C1_frame_roundtrip (payload mask rest : List Nat)
    (hm : mask.length = 4) (hlen : payload.length < 2 ^ 64) :
    recvFrame (sendFrame payload mask ++ rest) = some (payload, rest) ∧
    (sendFrame payload mask).length =
      (if payload.length < 126 then 2
       else if payload.length < 65536 then 4 else 10) + 4 + payload.length := by
  have hxlen : (xorMask mask payload 0).length = payload.length :=
    xorMask_length mask payload 0
  refine ⟨?_, ?_⟩
  · by_cases h1 : payload.length < 126
    · have hstream : sendFrame payload mask ++ rest =
          0x81 :: (payload.length ||| 0x80) ::
            (mask ++ (xorMask mask payload 0 ++ rest)) := by
        simp [sendFrame, h1, List.append_assoc]
      rw [hstream, recvFrame_cons]
      have hlt : payload.length < 128 := by omega
      have hlc : (payload.length ||| 0x80) &&& 0x7F = payload.length := or80_and7f hlt
      have h126 : ¬(payload.length = 126) := by omega
      have h127 : ¬(payload.length = 127) := by omega
      have hmb : ((payload.length ||| 0x80) &&& 0x80 != 0) = true := by
        simpa [bne_iff_ne] using or80_and80_ne payload.length
      rw [hlc, if_neg h126, if_neg h127]
      simp only [hmb, if_true, Option.some_bind]
      rw [readExactly_exact mask (xorMask mask payload 0 ++ rest) hm]
      simp only [Option.some_bind]
      rw [readExactly_exact (xorMask mask payload 0) rest hxlen]
      simp [xorMask_xorMask]
    · by_cases h2 : payload.length < 65536
      · have hstream : sendFrame payload mask ++ rest =
            0x81 :: (126 ||| 0x80) ::
              (packBE 2 payload.length ++
                (mask ++ (xorMask mask payload 0 ++ rest))) := by
          simp [sendFrame, h1, h2, List.append_assoc]
        rw [hstream, recvFrame_cons]
        have hlc : ((126 ||| 0x80 : Nat) &&& 0x7F = 126) = True := by decide
        have hmb : (((126 ||| 0x80 : Nat)) &&& 0x80 != 0) = true := by decide
        rw [if_pos (of_eq_true hlc)]
        rw [readExactly_exact (packBE 2 payload.length)
          (mask ++ (xorMask mask payload 0 ++ rest)) (packBE_length 2 payload.length)]
        have hval : unpackBE (packBE 2 payload.length) = payload.length := by
          rw [unpackBE_packBE]
          exact Nat.mod_eq_of_lt (by norm_num [h2])
        simp only [Option.map_some', Option.some_bind, hval, hmb, if_true]
        rw [readExactly_exact mask (xorMask mask payload 0 ++ rest) hm]
        simp only [Option.some_bind]
        rw [readExactly_exact (xorMask mask payload 0) rest hxlen]
        simp [xorMask_xorMask]
      · have hstream : sendFrame payload mask ++ rest =
            0x81 :: (127 ||| 0x80) ::
              (packBE 8 payload.length ++
                (mask ++ (xorMask mask payload 0 ++ rest))) := by
          simp [sendFrame, h1, h2, List.append_assoc]
        rw [hstream, recvFrame_cons]
        have hne : ¬((127 ||| 0x80 : Nat) &&& 0x7F = 126) := by decide
        have hlc : ((127 ||| 0x80 : Nat) &&& 0x7F = 127) = True := by decide
        have hmb : (((127 ||| 0x80 : Nat)) &&& 0x80 != 0) = true := by decide
        rw [if_neg hne, if_pos (of_eq_true hlc)]
        rw [readExactly_exact (packBE 8 payload.length)
          (mask ++ (xorMask mask payload 0 ++ rest)) (packBE_length 8 payload.length)]
        have hval : unpackBE (packBE 8 payload.length) = payload.length := by
          rw [unpackBE_packBE]
          exact Nat.mod_eq_of_lt (by norm_num at hlen ⊢; omega)
        simp only [Option.map_some', Option.some_bind, hval, hmb, if_true]
        rw [readExactly_exact mask (xorMask mask payload 0 ++ rest) hm]
        simp only [Option.some_bind]
        rw [readExactly_exact (xorMask mask payload 0) rest hxlen]
        simp [xorMask_xorMask]
  · by_cases h1 : payload.length < 126
    · simp [sendFrame, h1, hm, hxlen]
      omega
    · by_cases h2 : payload.length < 65536
      · simp [sendFrame, h1, h2, hm, hxlen, packBE_length]
        omega
      · simp [sendFrame, h1, h2, hm, hxlen, packBE_length]
        omega

/-- C1 witness: a concrete 2-byte payload with a concrete mask round-trips and
has the inline-width frame length. -/
theorem claim_C1_frame_roundtrip_witness :
    recvFrame (sendFrame [104, 105] [1, 2, 3, 4] ++ [9]) = some ([104, 105], [9]) ∧
    (sendFrame [104, 105] [1, 2, 3, 4]).length =
      (if ([104, 105] : List Nat).length < 126 then 2
       else if ([104, 105] : List Nat).length < 65536 then 4 else 10) + 4 +
        ([104, 105] : List Nat).length :=
  claim_C1_frame_roundtrip [104, 105] [1, 2, 3, 4] [9] (by decide) (by decide)

/- Message layer: envelopes, the per-connection id counter, and the workflows. -/

/-- Carrier for JSON values appearing in envelope fields.  The workflows only
construct strings and integers and pass incoming values through opaquely. -/
inductive JVal where
  | str : String → JVal
  | int : Int → JVal
  | null : JVal
deriving DecidableEq

/-- An incoming message as the workflows read it via `msg.get(...)`: every
field access is optional (`none` models an absent key). -/
structure Msg where
  type? : Option Int
  event? : Option String
  args? : Option (List JVal)
  result? : Option JVal
  error? : Option JVal
deriving DecidableEq

/-- An outgoing Call as observed on the wire: the route string and the
positional argument list. -/
abbrev SentCall := String × List JVal

/-- DeckyClient connection state: the `msg_id` counter. -/
structure ClientState where
  msg_id : Nat
deriving DecidableEq

/-- `DeckyClient.__init__` sets `self.msg_id = 0`. -/
def initClient : ClientState := ⟨0⟩

/-- The envelope dict serialized by `DeckyClient.send`:
`{"type": msg_type, "id": self.msg_id, "route": method, "args": args}`. -/
structure Envelope where
  type : Int
  id : Nat
  route : String
  args : List JVal
deriving DecidableEq

/-- `DeckyClient.send`: increment `msg_id` first, then serialize the envelope
carrying the incremented id. -/
def send (st : ClientState) (msg_type : Int) (method : String) (args : List JVal) :
    ClientState × Envelope :=
  (⟨st.msg_id + 1⟩, ⟨msg_type, st.msg_id + 1, method, args⟩)

/-- The envelopes produced by a sequence of `send` calls on one connection. -/
def sendAll (st : ClientState) : List (Int × String × List JVal) → List Envelope
  | [] => []
  | r :: rest => (send st r.1 r.2.1 r.2.2).2 :: sendAll (send st r.1 r.2.1 r.2.2).1 rest

/-- Python `x or d` on an optional string field: the fallback `d` is taken when
the field is absent (`None`) or the empty string (both falsy). -/
def orDefault (o : Option String) (d : String) : String :=
  match o with
  | none => d
  | some s => if s = "" then d else s

/-- A version record from the plugin catalog (`{name, artifact, hash}`). -/
structure Version where
  name? : Option String
  artifact? : Option String
  hash? : Option String
deriving DecidableEq

/-- A plugin record from the catalog.  The `id` is modelled after the
`int(p.get("id"))` normalization, i.e. already as an integer. -/
structure PluginRec where
  id : Int
  name? : Option String
  versions? : Option (List Version)
deriving DecidableEq

/-- Code points of a string, the units Python compares strings by. -/
def strCodes (s : String) : List Nat := s.data.map Char.toNat

/-- The sort key `lambda v: (v.get("name") or "")`, as its code-point list. -/
def versionKey (v : Version) : List Nat := strCodes (orDefault v.name? "")

/-- Comparison underlying `sorted(versions, key=...)`: lexicographic
code-point order on the name keys. -/
def versionLE (a b : Version) : Prop := versionKey a ≤ versionKey b

instance : DecidableRel versionLE :=
  fun a b => inferInstanceAs (Decidable (versionKey a ≤ versionKey b))

instance : IsTotal Version versionLE :=
  ⟨fun a b => le_total (versionKey a) (versionKey b)⟩

instance : IsTrans Version versionLE :=
  ⟨fun _ _ _ h1 h2 => le_trans h1 h2⟩

instance : IsRefl Version versionLE :=
  ⟨fun _ => le_refl _⟩

/-- `latest = sorted(versions, key=lambda v: (v.get("name") or ""))[-1]`. -/
def latestVersion (versions : List Version) : Version :=
  (List.insertionSort versionLE versions).getLastD ⟨none, none, none⟩

/-- Failure modes of the catalog step of `run_installer`, in source order:
`plugin id not found`, `store entry missing versions`,
`latest version missing artifact URL`; plus the post-loop failure when the
stream ends before a finish event. -/
inductive InstallError where
  | pluginNotFound
  | noVersionsAvailable
  | missingArtifact
  | connectionClosed
deriving DecidableEq

/-- Catalog step of `run_installer` (lines 174-188): locate the entry with the
requested id, select the lexicographically-last version, extract its artifact
URL, name and hash, failing in source order. -/
def catalogStep (plugins : List PluginRec) (targetId : Int) :
    Except InstallError (String × String × String × String) :=
  match plugins.find? (fun p => p.id == targetId) with
  | none => .error .pluginNotFound
  | some target =>
    let pluginName := orDefault target.name? ("plugin-" ++ toString targetId)
    let versions := target.versions?.getD []
    if versions = [] then .error .noVersionsAvailable
    else
      let latest := latestVersion versions
      let versionName := orDefault latest.name? "dev"
      let artifactUrl := orDefault latest.artifact? ""
      let hash := orDefault latest.hash? ""
      if artifactUrl = "" then .error .missingArtifact
      else .ok (artifactUrl, pluginName, versionName, hash)

/-- The receive loop of `run_installer` (lines 194-221), fed the list of
messages the server delivers before closing the stream.  Returns the
confirmation Calls sent inside the loop and the final `success` flag.  A
prompt event with at least 3 args sends one confirmation Call carrying the
third arg and continues; a prompt with fewer args is only logged; a
download-finish event stops with success; Reply and Error messages are only
logged; exhausting the list models `recv` returning `None`. -/
def installLoop : List Msg → List SentCall × Bool
  | [] => ([], false)
  | m :: rest =>
    if m.type? = some EVENT ∧ m.event? = some "loader/add_plugin_install_prompt" then
      if (m.args?.getD []).length < 3 then installLoop rest
      else
        (("utilities/confirm_plugin_install", [(m.args?.getD []).getD 2 .null]) ::
            (installLoop rest).1,
          (installLoop rest).2)
    else if m.type? = some EVENT ∧ m.event? = some "loader/plugin_download_finish" then
      ([], true)
    else installLoop rest

/-- Overall outcome of `run_installer`: normal return, or the raised error. -/
inductive InstallResult where
  | succeeded
  | failed : InstallError → InstallResult
deriving DecidableEq

/-- `run_installer` after the handshake: the catalog step, the single
`utilities/install_plugin` Call, and the receive loop.  Returns every Call
sent over the connection in order, and the outcome. -/
def runInstaller (plugins : List PluginRec) (targetId : Int) (msgs : List Msg) :
    List SentCall × InstallResult :=
  match catalogStep plugins targetId with
  | .error e => ([], .failed e)
  | .ok r =>
    (("utilities/install_plugin",
        [.str r.1, .str r.2.1, .str r.2.2.1, .str r.2.2.2, .int 0]) ::
        (installLoop msgs).1,
      if (installLoop msgs).2 then .succeeded else .failed .connectionClosed)

/-- Outcome of `configure_store_url`: the function either returns normally,
or raises on a server-reported Error envelope, or raises when the stream ends
with no message.  A response of any other type falls off the `if`/`elif`
chain and the function returns normally. -/
inductive SetOutcome where
  | completed
  | failedServer : Option JVal → SetOutcome
  | failedClosed
deriving DecidableEq

/-- `configure_store_url` after the handshake: one Call to
`utilities/settings/set` with `["store_url", store_url]`, then exactly one
receive. -/
def configure_store_url (store_url : String) (reply : Option Msg) :
    SentCall × SetOutcome :=
  (("utilities/settings/set", [.str "store_url", .str store_url]),
    match reply with
    | none => .failedClosed
    | some msg =>
      if msg.type? = some REPLY then .completed
      else if msg.type? = some ERROR then .failedServer msg.error?
      else .completed)

/-- Outcome of `get_store_url`: the result value on a Reply, a raised error on
a server-reported Error, on a closed stream, or on any other response type
(`Unexpected response type`). -/
inductive GetOutcome where
  | got : Option JVal → GetOutcome
  | failedServer : Option JVal → GetOutcome
  | failedClosed
  | failedUnexpected
deriving DecidableEq

/-- `get_store_url` after the handshake: one Call to `utilities/settings/get`
with `["store_url", DEFAULT_STORE_URL]`, then exactly one receive. -/
def get_store_url (reply : Option Msg) : SentCall × GetOutcome :=
  (("utilities/settings/get", [.str "store_url", .str DEFAULT_STORE_URL]),
    match reply with
    | none => .failedClosed
    | some msg =>
      if msg.type? = some REPLY then .got msg.result?
      else if msg.type? = some ERROR then .failedServer msg.error?
      else .failedUnexpected)

/- Lemmas about sorted lists and their last element. -/

theorem getLastD_mem {α : Type} :
    ∀ (l : List α) (d : α), l ≠ [] → l.getLastD d ∈ l := by
  intro l
  induction l with
  | nil => intro d h; exact absurd rfl h
  | cons a t ih =>
    intro d _
    rw [List.getLastD_cons]
    cases t with
    | nil => simp
    | cons b t2 => exact List.mem_cons_of_mem a (ih a (by simp))

theorem sorted_rel_getLastD {α : Type} {r : α → α → Prop} [IsRefl α r] :
    ∀ (l : List α) (d : α), l.Sorted r → ∀ x ∈ l, r x (l.getLastD d) := by
  intro l
  induction l with
  | nil => intro d _ x hx; simp at hx
  | cons a t ih =>
    intro d hs x hx
    rw [List.getLastD_cons]
    rcases List.mem_cons.mp hx with hxa | hxt
    · subst hxa
      cases t with
      | nil => exact IsRefl.refl x
      | cons b t2 =>
        have hmem : (b :: t2).getLastD x ∈ b :: t2 := getLastD_mem _ _ (by simp)
        exact (List.sorted_cons.mp hs).1 _ hmem
    · exact ih a (List.sorted_cons.mp hs).2 x hxt

/-- C2: in the install receive loop, a `loader/add_plugin_install_prompt`
Event with at least 3 positional args triggers exactly one Call to
`utilities/confirm_plugin_install` whose single argument is position 2 of the
event args, after which the loop continues; a prompt with fewer than 3 args is
ignored and the loop continues with no Call sent; and a
`loader/plugin_download_finish` Event terminates the loop with success. -/
theorem claim_C2_prompt_loop (m : Msg) (rest : List Msg) :
    (m.type? = some EVENT → m.event? = some "loader/add_plugin_install_prompt" →
      ((m.args?.getD []).length < 3 →
        installLoop (m :: rest) = installLoop rest) ∧
      (3 ≤ (m.args?.getD []).length →
        installLoop (m :: rest) =
          (("utilities/confirm_plugin_install", [(m.args?.getD []).getD 2 .null]) ::
              (installLoop rest).1,
            (installLoop rest).2))) ∧
    (m.type? = some EVENT → m.event? = some "loader/plugin_download_finish" →
      installLoop (m :: rest) = ([], true)) := by
  constructor
  · intro ht he
    constructor
    · intro hlt
      simp [installLoop, ht, he, hlt]
    · intro hge
      have hnlt : ¬((m.args?.getD []).length < 3) := by omega
      simp [installLoop, ht, he, hnlt]
  · intro ht he
    have hne : ¬(m.event? = some "loader/add_plugin_install_prompt") := by
      rw [he]
      intro hcon
      exact absurd (Option.some.inj hcon) (by decide)
    simp [installLoop, ht, he, hne]

/-- C2 witness: a prompt event with 3 args sends exactly the confirmation Call
with the third arg; a prompt with 1 arg sends nothing; a finish event stops
with success. -/
theorem claim_C2_prompt_loop_witness :
    installLoop
        [⟨some 3, some "loader/add_plugin_install_prompt",
          some [.null, .null, .str "req-1"], none, none⟩] =
      (("utilities/confirm_plugin_install",
          [((⟨some 3, some "loader/add_plugin_install_prompt",
              some [.null, .null, .str "req-1"], none, none⟩ : Msg).args?.getD
              []).getD 2 .null]) ::
          (installLoop []).1,
        (installLoop []).2) ∧
    installLoop
        [⟨some 3, some "loader/add_plugin_install_prompt", some [.null], none,
          none⟩] =
      installLoop [] ∧
    installLoop [⟨some 3, some "loader/plugin_download_finish", none, none, none⟩] =
      ([], true) :=
  ⟨((claim_C2_prompt_loop
      ⟨some 3, some "loader/add_plugin_install_prompt",
        some [.null, .null, .str "req-1"], none, none⟩ []).1 rfl rfl).2 (by decide),
    ((claim_C2_prompt_loop
      ⟨some 3, some "loader/add_plugin_install_prompt", some [.null], none,
        none⟩ []).1 rfl rfl).1 (by decide),
    (claim_C2_prompt_loop
      ⟨some 3, some "loader/plugin_download_finish", none, none, none⟩ []).2 rfl rfl⟩

/-- C3: for every non-empty version list, the selected version is a member of
the list and its name key is lexicographically maximal; in particular for
versions named 1.0.0, 1.9.0, 1.10.0 the selected version is named 1.9.0
(ordinary lexicographic string order, not semantic version order). -/
theorem claim_C3_version_selection :
    (∀ vs : List Version, vs ≠ [] →
      latestVersion vs ∈ vs ∧
        ∀ v ∈ vs, versionKey v ≤ versionKey (latestVersion vs)) ∧
    (latestVersion
        [⟨some "1.0.0", none, none⟩, ⟨some "1.9.0", none, none⟩,
          ⟨some "1.10.0", none, none⟩]).name? = some "1.9.0" := by
  constructor
  · intro vs hne
    have hperm := List.perm_insertionSort versionLE vs
    have hsorted := List.sorted_insertionSort versionLE vs
    have hne2 : List.insertionSort versionLE vs ≠ [] := by
      intro h
      apply hne
      have hlen := hperm.length_eq
      rw [h] at hlen
      exact List.length_eq_zero.mp hlen.symm
    constructor
    · exact hperm.mem_iff.mp (getLastD_mem _ _ hne2)
    · intro v hv
      exact sorted_rel_getLastD _ _ hsorted v (hperm.mem_iff.mpr hv)
  · decide

/-- C3 witness: the general part instantiated at the three-version list. -/
theorem claim_C3_version_selection_witness :
    latestVersion
        [⟨some "1.0.0", none, none⟩, ⟨some "1.9.0", none, none⟩,
          ⟨some "1.10.0", none, none⟩] ∈
      ([⟨some "1.0.0", none, none⟩, ⟨some "1.9.0", none, none⟩,
        ⟨some "1.10.0", none, none⟩] : List Version) ∧
    ∀ v ∈ ([⟨some "1.0.0", none, none⟩, ⟨some "1.9.0", none, none⟩,
        ⟨some "1.10.0", none, none⟩] : List Version),
      versionKey v ≤
        versionKey (latestVersion
          [⟨some "1.0.0", none, none⟩, ⟨some "1.9.0", none, none⟩,
            ⟨some "1.10.0", none, none⟩]) :=
  claim_C3_version_selection.1
    [⟨some "1.0.0", none, none⟩, ⟨some "1.9.0", none, none⟩,
      ⟨some "1.10.0", none, none⟩] (by decide)

/-- C4: if no catalog entry matches the target id, the install flow fails with
the plugin-not-found error and sends no Call at all; with a matched entry, an
empty version list fails with no-versions-available, and a selected version
with an empty artifact URL fails with missing-artifact — each failure terminal
and checked in that order, always before any Call is sent. -/
theorem claim_C4_catalog_failures (plugins : List PluginRec) (targetId : Int)
    (msgs : List Msg) :
    ((∀ p ∈ plugins, p.id ≠ targetId) →
      runInstaller plugins targetId msgs = ([], .failed .pluginNotFound)) ∧
    (∀ target, plugins.find? (fun p => p.id == targetId) = some target →
      (target.versions?.getD [] = [] →
        runInstaller plugins targetId msgs = ([], .failed .noVersionsAvailable)) ∧
      (target.versions?.getD [] ≠ [] →
        orDefault (latestVersion (target.versions?.getD [])).artifact? "" = "" →
        runInstaller plugins targetId msgs = ([], .failed .missingArtifact))) := by
  constructor
  · intro hnone
    have hfind : plugins.find? (fun p => p.id == targetId) = none := by
      rw [List.find?_eq_none]
      intro p hp
      simpa using hnone p hp
    simp [runInstaller, catalogStep, hfind]
  · intro target hfind
    constructor
    · intro hempty
      simp [runInstaller, catalogStep, hfind, hempty]
    · intro hne hart
      simp [runInstaller, catalogStep, hfind, hne, hart]

/-- C4 witness: the three failures at concrete catalogs, each with no Call
sent. -/
theorem claim_C4_catalog_failures_witness :
    runInstaller [⟨7, none, none⟩] 42 [] = ([], .failed .pluginNotFound) ∧
    runInstaller [⟨42, none, some []⟩] 42 [] = ([], .failed .noVersionsAvailable) ∧
    runInstaller [⟨42, none, some [⟨some "dev", none, none⟩]⟩] 42 [] =
      ([], .failed .missingArtifact) :=
  ⟨(claim_C4_catalog_failures [⟨7, none, none⟩] 42 []).1 (by decide),
    ((claim_C4_catalog_failures [⟨42, none, some []⟩] 42 []).2
      ⟨42, none, some []⟩ (by decide)).1 rfl,
    ((claim_C4_catalog_failures [⟨42, none, some [⟨some "dev", none, none⟩]⟩] 42
        []).2 ⟨42, none, some [⟨some "dev", none, none⟩]⟩ (by decide)).2
      (by decide) (by decide)⟩

/-- C5: recv returns `None` (not an error) whenever the stream ends before or
during the header, extended length, mask, or payload bytes of a frame; a fully
read frame whose payload the JSON parser rejects is a hard protocol-violation
error instead. -/
theorem claim_C5_recv_null_vs_error {M : Type} (parse : List Nat → Option M) :
    (∀ s : List Nat, s.length < 2 → recvMsg parse s = .ok none) ∧
    (∀ b0 b1 : Nat, ∀ t : List Nat, b1 &&& 0x7F = 126 → t.length < 2 →
      recvMsg parse (b0 :: b1 :: t) = .ok none) ∧
    (∀ b0 b1 : Nat, ∀ t : List Nat, b1 &&& 0x7F = 127 → t.length < 8 →
      recvMsg parse (b0 :: b1 :: t) = .ok none) ∧
    (∀ b0 b1 : Nat, ∀ t : List Nat, b1 &&& 0x7F < 126 → (b1 &&& 0x80) ≠ 0 →
      t.length < 4 → recvMsg parse (b0 :: b1 :: t) = .ok none) ∧
    (∀ b0 b1 : Nat, ∀ t : List Nat, b1 &&& 0x7F < 126 → (b1 &&& 0x80) = 0 →
      t.length < (b1 &&& 0x7F) → recvMsg parse (b0 :: b1 :: t) = .ok none) ∧
    (∀ (s payload rest : List Nat), recvFrame s = some (payload, rest) →
      parse payload = none → recvMsg parse s = .error .protocolViolation) := by
  refine ⟨?_, ?_, ?_, ?_, ?_, ?_⟩
  · intro s hs
    have h := readExactly_eq_none s hs
    simp [recvMsg, recvFrame, h]
  · intro b0 b1 t hext ht
    have hframe : recvFrame (b0 :: b1 :: t) = none := by
      rw [recvFrame_cons, if_pos hext, readExactly_eq_none t ht]
      rfl
    simp [recvMsg, hframe]
  · intro b0 b1 t hext ht
    have hframe : recvFrame (b0 :: b1 :: t) = none := by
      have h126 : ¬(b1 &&& 0x7F = 126) := by omega
      rw [recvFrame_cons, if_neg h126, if_pos hext, readExactly_eq_none t ht]
      rfl
    simp [recvMsg, hframe]
  · intro b0 b1 t hlt hmaskbit ht
    have hframe : recvFrame (b0 :: b1 :: t) = none := by
      have h126 : ¬(b1 &&& 0x7F = 126) := by omega
      have h127 : ¬(b1 &&& 0x7F = 127) := by omega
      have hmb : ((b1 &&& 0x80) != 0) = true := bne_iff_ne.mpr hmaskbit
      rw [recvFrame_cons, if_neg h126, if_neg h127]
      simp only [Option.some_bind, hmb, if_true]
      rw [readExactly_eq_none t ht]
      rfl
    simp [recvMsg, hframe]
  · intro b0 b1 t hlt hmaskbit ht
    have hframe : recvFrame (b0 :: b1 :: t) = none := by
      have h126 : ¬(b1 &&& 0x7F = 126) := by omega
      have h127 : ¬(b1 &&& 0x7F = 127) := by omega
      rw [recvFrame_cons, if_neg h126, if_neg h127]
      simp [hmaskbit, readExactly_eq_none t ht]
    simp [recvMsg, hframe]
  · intro s payload rest hframe hparse
    simp [recvMsg, hframe, hparse]

/-- C5 witness: concrete truncated streams at each stage yield `None`; a full
one-byte frame with a failing parser yields the protocol-violation error. -/
theorem claim_C5_recv_null_vs_error_witness :
    recvMsg (fun _ : List Nat => (none : Option Unit)) [0x81] = .ok none ∧
    recvMsg (fun _ : List Nat => (none : Option Unit)) [0x81, 126, 5] = .ok none ∧
    recvMsg (fun _ : List Nat => (none : Option Unit)) [0x81, 127, 5] = .ok none ∧
    recvMsg (fun _ : List Nat => (none : Option Unit)) [0x81, 0x85, 1, 2] = .ok none ∧
    recvMsg (fun _ : List Nat => (none : Option Unit)) [0x81, 5, 1, 2] = .ok none ∧
    recvMsg (fun _ : List Nat => (none : Option Unit)) [0x81, 1, 65] =
      .error .protocolViolation :=
  ⟨(claim_C5_recv_null_vs_error _).1 [0x81] (by decide),
    (claim_C5_recv_null_vs_error _).2.1 0x81 126 [5] (by decide) (by decide),
    (claim_C5_recv_null_vs_error _).2.2.1 0x81 127 [5] (by decide) (by decide),
    (claim_C5_recv_null_vs_error _).2.2.2.1 0x81 0x85 [1, 2] (by decide)
      (by decide) (by decide),
    (claim_C5_recv_null_vs_error _).2.2.2.2.1 0x81 5 [1, 2] (by decide)
      (by decide) (by decide),
    (claim_C5_recv_null_vs_error _).2.2.2.2.2 [0x81, 1, 65] [65] [] (by decide) rfl⟩

/-- Reading a frame with an 8-byte extended length: for any declared length
below 2^64 the reader accepts it and reads exactly that many payload bytes. -/
theorem recvFrame_ext8 (n : Nat) (payload rest : List Nat) (hn : n < 2 ^ 64)
    (hp : payload.length = n) :
    recvFrame (0x81 :: 0x7F :: (packBE 8 n ++ (payload ++ rest))) =
      some (payload, rest) := by
  rw [recvFrame_cons]
  have h126 : ¬((0x7F : Nat) &&& 0x7F = 126) := by decide
  have h127 : (0x7F : Nat) &&& 0x7F = 127 := by decide
  rw [if_neg h126, if_pos h127]
  rw [readExactly_exact (packBE 8 n) (payload ++ rest) (packBE_length 8 n)]
  have hval : unpackBE (packBE 8 n) = n := by
    rw [unpackBE_packBE]
    exact Nat.mod_eq_of_lt (by norm_num at hn ⊢; omega)
  have hmb : (((0x7F : Nat) &&& 0x80) != 0) = false := by decide
  simp only [Option.map_some', Option.some_bind, hval, hmb, Bool.false_eq_true,
    if_false]
  rw [readExactly_exact payload rest hp]
  simp

/-- C6 (amended): recv treats every length field as unsigned big-endian and
attempts to read exactly the declared number of payload bytes for any declared
length below 2^64; no defensive 64 MiB bound exists. -/
theorem claim_C6_no_length_bound (n : Nat) (payload rest : List Nat)
    (hn : n < 2 ^ 64) (hp : payload.length = n) :
    recvFrame (0x81 :: 0x7F :: (packBE 8 n ++ (payload ++ rest))) =
      some (payload, rest) :=
  recvFrame_ext8 n payload rest hn hp

/-- C6 witness: a concrete declared length of 3 is read back in full. -/
theorem claim_C6_no_length_bound_witness :
    recvFrame (0x81 :: 0x7F :: (packBE 8 3 ++ ([10, 11, 12] ++ []))) =
      some ([10, 11, 12], []) :=
  claim_C6_no_length_bound 3 [10, 11, 12] [] (by norm_num) (by decide)

/-- C6 counterexample: a frame declaring a payload of 64 MiB + 1 = 67108865
bytes is not rejected; recv reads the whole declared payload. -/
theorem claim_C6_counterexample :
    recvFrame (0x81 :: 0x7F ::
        (packBE 8 67108865 ++ (List.replicate 67108865 1 ++ []))) =
      some (List.replicate 67108865 1, []) :=
  recvFrame_ext8 67108865 (List.replicate 67108865 1) [] (by norm_num)
    (by rw [List.length_replicate])

/-- C7: the per-connection message-id counter starts at 0, `send` increments
it exactly once before serializing (the envelope carries the incremented
value), and the i-th envelope sent on a fresh connection carries id `i + 1`. -/
theorem claim_C7_msg_ids :
    initClient.msg_id = 0 ∧
    (∀ (st : ClientState) (t : Int) (r : String) (a : List JVal),
      (send st t r a).1.msg_id = st.msg_id + 1 ∧
        (send st t r a).2.id = st.msg_id + 1) ∧
    (∀ (reqs : List (Int × String × List JVal)) (i : Nat)
      (h : i < (sendAll initClient reqs).length),
      ((sendAll initClient reqs).get ⟨i, h⟩).id = i + 1) := by
  refine ⟨rfl, fun _ _ _ _ => ⟨rfl, rfl⟩, ?_⟩
  have key : ∀ (reqs : List (Int × String × List JVal)) (c i : Nat)
      (h : i < (sendAll ⟨c⟩ reqs).length),
      ((sendAll ⟨c⟩ reqs).get ⟨i, h⟩).id = c + i + 1 := by
    intro reqs
    induction reqs with
    | nil => intro c i h; simp [sendAll] at h
    | cons r rest ih =>
      intro c i h
      cases i with
      | zero => rfl
      | succ j =>
        have h2 : j < (sendAll ⟨c + 1⟩ rest).length := by
          simpa [sendAll, send] using h
        have hj := ih (c + 1) j h2
        have hstep : ((sendAll ⟨c⟩ (r :: rest)).get ⟨j + 1, h⟩).id =
            ((sendAll ⟨c + 1⟩ rest).get ⟨j, h2⟩).id := by
          simp [sendAll, send]
        rw [hstep, hj]
        omega
  intro reqs i h
  have := key reqs 0 i h
  simpa using this

/-- C7 witness: two sends on a fresh connection; the second envelope carries
id 2. -/
theorem claim_C7_msg_ids_witness :
    initClient.msg_id = 0 ∧
    (send initClient CALL "utilities/install_plugin" []).1.msg_id =
        initClient.msg_id + 1 ∧
      (send initClient CALL "utilities/install_plugin" []).2.id =
        initClient.msg_id + 1 ∧
    ((sendAll initClient
        [(CALL, "utilities/install_plugin", []),
          (CALL, "utilities/confirm_plugin_install", [])]).get
      ⟨1, by decide⟩).id = 1 + 1 :=
  ⟨claim_C7_msg_ids.1,
    (claim_C7_msg_ids.2.1 initClient CALL "utilities/install_plugin" []).1,
    (claim_C7_msg_ids.2.1 initClient CALL "utilities/install_plugin" []).2,
    claim_C7_msg_ids.2.2
      [(CALL, "utilities/install_plugin", []),
        (CALL, "utilities/confirm_plugin_install", [])] 1 (by decide)⟩

/-- C8: the settings-get flow sends exactly one Call to
`utilities/settings/get` with args `[key, default_value]`; the single received
message determines the outcome: a Reply succeeds with the result value, an
Error fails with the server-reported error, and a closed stream (no message)
fails with a connection-closed error. -/
theorem claim_C8_get_flow (reply : Option Msg) :
    (get_store_url reply).1 =
      ("utilities/settings/get", [.str "store_url", .str DEFAULT_STORE_URL]) ∧
    (reply = none → (get_store_url reply).2 = .failedClosed) ∧
    (∀ msg, reply = some msg → msg.type? = some REPLY →
      (get_store_url reply).2 = .got msg.result?) ∧
    (∀ msg, reply = some msg → msg.type? = some ERROR →
      (get_store_url reply).2 = .failedServer msg.error?) := by
  refine ⟨rfl, ?_, ?_, ?_⟩
  · intro h
    subst h
    rfl
  · intro msg h ht
    subst h
    simp [get_store_url, ht]
  · intro msg h ht
    subst h
    simp [get_store_url, ht, REPLY, ERROR]

/-- C8 witness: the three outcomes at concrete replies, and the sent Call. -/
theorem claim_C8_get_flow_witness :
    (get_store_url none).1 =
      ("utilities/settings/get", [.str "store_url", .str DEFAULT_STORE_URL]) ∧
    (get_store_url none).2 = .failedClosed ∧
    (get_store_url (some ⟨some 1, none, none, some (.str "https://s"), none⟩)).2 =
      .got (some (.str "https://s")) ∧
    (get_store_url (some ⟨some (-1), none, none, none, some (.str "boom")⟩)).2 =
      .failedServer (some (.str "boom")) :=
  ⟨(claim_C8_get_flow none).1,
    (claim_C8_get_flow none).2.1 rfl,
    (claim_C8_get_flow (some ⟨some 1, none, none, some (.str "https://s"), none⟩)).2.2.1
      ⟨some 1, none, none, some (.str "https://s"), none⟩ rfl rfl,
    (claim_C8_get_flow (some ⟨some (-1), none, none, none, some (.str "boom")⟩)).2.2.2
      ⟨some (-1), none, none, none, some (.str "boom")⟩ rfl rfl⟩

/-- C9: on a single received message whose type is neither Reply nor Error,
the settings-set flow completes successfully without raising, while the
settings-get flow fails with the unexpected-response-type error. -/
theorem claim_C9_unexpected_divergence (store_url : String) (msg : Msg)
    (h1 : msg.type? ≠ some REPLY) (h2 : msg.type? ≠ some ERROR) :
    (configure_store_url store_url (some msg)).2 = .completed ∧
    (get_store_url (some msg)).2 = .failedUnexpected := by
  constructor
  · simp [configure_store_url, h1, h2]
  · simp [get_store_url, h1, h2]

/-- C9 witness: an Event-typed response makes set succeed and get fail. -/
theorem claim_C9_unexpected_divergence_witness :
    (configure_store_url "https://s"
        (some ⟨some 3, some "loader/ping", none, none, none⟩)).2 = .completed ∧
    (get_store_url (some ⟨some 3, some "loader/ping", none, none, none⟩)).2 =
      .failedUnexpected :=
  claim_C9_unexpected_divergence "https://s"
    ⟨some 3, some "loader/ping", none, none, none⟩ (by decide) (by decide)

/-- C10: recv never inspects the frame opcode — the decode result is
independent of the first header byte — so a fully read Close frame (opcode 8)
carrying a 2-byte status payload is parsed as JSON like any text frame, and a
failing parse yields the hard protocol-violation error rather than `None` or
close handling. -/
theorem claim_C10_opcode_ignored :
    (∀ a b : Nat, ∀ t : List Nat, recvFrame (a :: t) = recvFrame (b :: t)) ∧
    (∀ (M : Type) (parse : List Nat → Option M) (s1 s2 : Nat),
      parse [s1, s2] = none →
      recvMsg parse [0x88, 2, s1, s2] = .error .protocolViolation) := by
  constructor
  · intro a b t
    cases t with
    | nil => rfl
    | cons b1 t2 => rw [recvFrame_cons, recvFrame_cons]
  · intro M parse s1 s2 hp
    have hframe : recvFrame [0x88, 2, s1, s2] = some ([s1, s2], []) := by
      have e1 : (2 : Nat) &&& 0x7F = 2 := by decide
      have e2 : (2 : Nat) &&& 0x80 = 0 := by decide
      rw [recvFrame_cons]
      simp [e1, e2, readExactly]
    simp [recvMsg, hframe, hp]

/-- C10 witness: a Close frame (first byte 0x88) decodes identically to a Text
frame (0x81), and a Close frame with the status-1000 payload and a failing
parser errors out. -/
theorem claim_C10_opcode_ignored_witness :
    recvFrame (0x88 :: [2, 3, 232]) = recvFrame (0x81 :: [2, 3, 232]) ∧
    recvMsg (fun _ : List Nat => (none : Option Unit)) [0x88, 2, 3, 232] =
      .error .protocolViolation :=
  ⟨claim_C10_opcode_ignored.1 0x88 0x81 [2, 3, 232],
    claim_C10_opcode_ignored.2 Unit (fun _ => none) 3 232 rfl⟩

end DeckyInstaller
